import Mathlib

/-!
Verification of the short-position fee calculator
(`crates/hyperdrive-math/src/short/fees.rs`).

The fee functions operate on an 18-decimal fixed-point scalar backed by a
256-bit unsigned integer.  The scalar type and the AMM-state accessors live
outside the shown source, so they are modelled from the specification:
values are natural numbers, the representable range is `[0, 2^256)`, and
every arithmetic primitive returns `Except FpError Nat` so that the
`Overflow` / `Underflow` / `DivisionByZero` failure paths are explicit.
-/

/-- The implicit fixed-point scale `10^18`. -/
def SCALE : Nat := 10 ^ 18

/-- One more than the largest representable 256-bit unsigned integer. -/
def U256LIM : Nat := 2 ^ 256

/-- Modelled from the spec: the arithmetic error taxonomy of the fixed-point
scalar type (§7): overflow past the 256-bit range, underflow of a
subtraction, and division by zero. -/
inductive FpError where
  | Overflow : FpError
  | Underflow : FpError
  | DivisionByZero : FpError
deriving DecidableEq, Repr

/-- Modelled from the spec: the combined multiply-then-divide primitive
`mulDivDown` of the fixed-point scalar type.  It multiplies at full width
(so the intermediate product cannot overflow), divides rounding toward
zero, fails with `DivisionByZero` on a zero denominator and with
`Overflow` when the quotient leaves the 256-bit range. -/
def mulDivDown (x y d : Nat) : Except FpError Nat :=
  if d = 0 then .error .DivisionByZero
  else if U256LIM ≤ x * y / d then .error .Overflow
  else .ok (x * y / d)

/-- Modelled from the spec: fixed-point multiplication is
`mulDivDown(x, y, 10^18)` (multiply then divide by the scale, rounding
toward zero). -/
def fixedMul (x y : Nat) : Except FpError Nat :=
  mulDivDown x y SCALE

/-- Modelled from the spec: overflow-checked subtraction of the fixed-point
scalar type; fails with `Underflow` when the result would go negative. -/
def fixedSub (x y : Nat) : Except FpError Nat :=
  if y ≤ x then .ok (x - y) else .error .Underflow

/-- Modelled from the spec: the AMM-state snapshot (§3, §6).  Its four fee
accessors, the spot price and the normalized-time-remaining collaborator
are read-only scalar data; the snapshot is immutable for the duration of a
call. -/
structure State where
  curve_fee : Nat
  governance_lp_fee : Nat
  flat_fee : Nat
  vault_share_price : Nat
  get_spot_price : Nat
  calculate_normalized_time_remaining : Nat → Nat → Nat

/-- Modelled from the spec: the collaborator contract of §6 together with
the 256-bit representability of every scalar the snapshot exposes — in
particular `calculate_normalized_time_remaining` returns a fraction in
`[0, 1]` fixed-point. -/
def State.wf (s : State) : Prop :=
  s.curve_fee < U256LIM ∧
  s.governance_lp_fee < U256LIM ∧
  s.flat_fee < U256LIM ∧
  s.vault_share_price < U256LIM ∧
  s.get_spot_price < U256LIM ∧
  ∀ m t, s.calculate_normalized_time_remaining m t ≤ SCALE

/-- `open_short_curve_fee` from `fees.rs`:
`self.curve_fee() * (fixed!(1e18) - spot_price) * short_amount`. -/
def State.open_short_curve_fee (s : State) (short_amount spot_price : Nat) :
    Except FpError Nat := do
  let d ← fixedSub SCALE spot_price
  let x ← fixedMul s.curve_fee d
  fixedMul x short_amount

/-- `open_short_governance_fee` from `fees.rs`:
`self.governance_lp_fee() * self.open_short_curve_fee(short_amount, spot_price)`. -/
def State.open_short_governance_fee (s : State) (short_amount spot_price : Nat) :
    Except FpError Nat := do
  let c ← s.open_short_curve_fee short_amount spot_price
  fixedMul s.governance_lp_fee c

/-- `close_short_curve_fee` from `fees.rs`:
`self.curve_fee() * (fixed!(1e18) - self.get_spot_price())
  * bond_amount.mul_div_down(normalized_time_remaining, self.vault_share_price())`. -/
def State.close_short_curve_fee (s : State)
    (bond_amount maturity_time current_time : Nat) : Except FpError Nat :=
  let ntr := s.calculate_normalized_time_remaining maturity_time current_time
  do
    let d ← fixedSub SCALE s.get_spot_price
    let x ← fixedMul s.curve_fee d
    let y ← mulDivDown bond_amount ntr s.vault_share_price
    fixedMul x y

/-- `close_short_flat_fee` from `fees.rs`:
`bond_amount.mul_div_down(fixed!(1e18) - normalized_time_remaining,
  self.vault_share_price()) * self.flat_fee()`. -/
def State.close_short_flat_fee (s : State)
    (bond_amount maturity_time current_time : Nat) : Except FpError Nat :=
  let ntr := s.calculate_normalized_time_remaining maturity_time current_time
  do
    let d ← fixedSub SCALE ntr
    let y ← mulDivDown bond_amount d s.vault_share_price
    fixedMul y s.flat_fee

/-- The spec's own wording of fixed-point multiplication for the refinement
statements: multiply then divide by `10^18`, rounding toward zero. -/
def specMulDown (x y : Nat) : Nat := x * y / SCALE

/-- The spec's own wording of `mulDivDown` (the successful case): multiply
before dividing, rounding toward zero. -/
def specMulDivDown (x y d : Nat) : Nat := x * y / d

/-- The spec's formula for the open-short curve fee, evaluated left to
right: `curveFeeRate × (1 − spotPrice) × shortAmount`. -/
def specOpenShortCurveFee (curveFeeRate spotPrice shortAmount : Nat) : Nat :=
  specMulDown (specMulDown curveFeeRate (SCALE - spotPrice)) shortAmount

/-- A sample snapshot taken from the spec's §8 scenario:
`curveFee = 0.01e18`, `governanceLpFee = 0.1e18`, `flatFee = 0.005e18`,
`vaultSharePrice = 1e18`, `spotPrice = 0.95e18`, and half the term
remaining. -/
def sampleState : State where
  curve_fee := 10 ^ 16
  governance_lp_fee := 10 ^ 17
  flat_fee := 5 * 10 ^ 15
  vault_share_price := 10 ^ 18
  get_spot_price := 95 * 10 ^ 16
  calculate_normalized_time_remaining := fun _ _ => 5 * 10 ^ 17

/-- A sample snapshot whose normalized time remaining depends on the
clock: the full term remains before maturity and nothing remains at or
after maturity. -/
def boundaryState : State where
  curve_fee := 10 ^ 16
  governance_lp_fee := 10 ^ 17
  flat_fee := 5 * 10 ^ 15
  vault_share_price := 10 ^ 18
  get_spot_price := 95 * 10 ^ 16
  calculate_normalized_time_remaining := fun m t => if m ≤ t then 0 else SCALE

lemma fixedSub_ok (x y : Nat) (h : y ≤ x) : fixedSub x y = .ok (x - y) := by
  simp [fixedSub, h]

lemma SCALE_ne_zero : SCALE ≠ 0 := by
  decide

lemma fixedMul_ok (x y : Nat) (h : x * y / SCALE < U256LIM) :
    fixedMul x y = .ok (x * y / SCALE) := by
  unfold fixedMul mulDivDown
  rw [if_neg SCALE_ne_zero, if_neg (Nat.not_le.mpr h)]

lemma mulDivDown_ok (x y d : Nat) (hd : d ≠ 0) (h : x * y / d < U256LIM) :
    mulDivDown x y d = .ok (x * y / d) := by
  simp [mulDivDown, hd, Nat.not_le.mpr h]

/-- C1: for every snapshot and all fixed-point inputs `shortAmount` and
`spotPrice` with `spotPrice ≤ 1e18` and no multiplication overflowing the
256-bit range, `open_short_curve_fee` returns exactly
`curveFeeRate × (1 − spotPrice) × shortAmount` evaluated left to right in
the 18-decimal fixed-point convention. -/
theorem open_short_curve_fee_eq_spec (s : State) (a p : Nat)
    (hp : p ≤ SCALE)
    (h1 : s.curve_fee * (SCALE - p) / SCALE < U256LIM)
    (h2 : s.curve_fee * (SCALE - p) / SCALE * a / SCALE < U256LIM) :
    s.open_short_curve_fee a p = .ok (specOpenShortCurveFee s.curve_fee p a) := by
  unfold State.open_short_curve_fee
  rw [fixedSub_ok _ _ hp]
  simp only [bind, Except.bind, fixedMul_ok _ _ h1, fixedMul_ok _ _ h2]
  simp [specOpenShortCurveFee, specMulDown]

/-- Witness for C1: the spec's §8 scenario — `curveFee = 0.01e18`,
`spotPrice = 0.95e18`, `shortAmount = 1000e18` gives exactly `0.5e18`. -/
theorem open_short_curve_fee_eq_spec_witness :
    (95 * 10 ^ 16 ≤ SCALE ∧
      sampleState.curve_fee * (SCALE - 95 * 10 ^ 16) / SCALE < U256LIM ∧
      sampleState.curve_fee * (SCALE - 95 * 10 ^ 16) / SCALE * (1000 * 10 ^ 18) / SCALE
        < U256LIM) ∧
    sampleState.open_short_curve_fee (1000 * 10 ^ 18) (95 * 10 ^ 16) =
      .ok (5 * 10 ^ 17) :=
  ⟨⟨by decide, by decide, by decide⟩,
    (open_short_curve_fee_eq_spec sampleState (1000 * 10 ^ 18) (95 * 10 ^ 16)
      (by decide) (by decide) (by decide)).trans (by rfl)⟩

/-- C4: `open_short_governance_fee` returns exactly
`governanceFeeShare × open_short_curve_fee(shortAmount, spotPrice)` in the
18-decimal convention, for whatever value the curve-fee call produced. -/
theorem open_short_governance_fee_eq_spec (s : State) (a p v : Nat)
    (hc : s.open_short_curve_fee a p = .ok v)
    (hg : s.governance_lp_fee * v / SCALE < U256LIM) :
    s.open_short_governance_fee a p = .ok (specMulDown s.governance_lp_fee v) := by
  unfold State.open_short_governance_fee
  rw [hc]
  simp only [bind, Except.bind, fixedMul_ok _ _ hg]
  simp [specMulDown]

/-- Witness for C4: the spec's §8 scenario — with `governanceLpFee = 0.1e18`
on the curve-fee scenario the governance fee is exactly `0.05e18`. -/
theorem open_short_governance_fee_eq_spec_witness :
    (sampleState.open_short_curve_fee (1000 * 10 ^ 18) (95 * 10 ^ 16) =
        .ok (5 * 10 ^ 17) ∧
      sampleState.governance_lp_fee * (5 * 10 ^ 17) / SCALE < U256LIM) ∧
    sampleState.open_short_governance_fee (1000 * 10 ^ 18) (95 * 10 ^ 16) =
      .ok (5 * 10 ^ 16) :=
  ⟨⟨by rfl, by decide⟩,
    (open_short_governance_fee_eq_spec sampleState (1000 * 10 ^ 18)
      (95 * 10 ^ 16) (5 * 10 ^ 17) (by rfl) (by decide)).trans (by rfl)⟩

/-- C5: whenever `governanceLpFee() ∈ [0, 1e18]` and both evaluations
succeed, the governance fee never exceeds the curve fee. -/
theorem open_short_governance_fee_le_curve_fee (s : State) (a p g c : Nat)
    (hgov : s.governance_lp_fee ≤ SCALE)
    (hg : s.open_short_governance_fee a p = .ok g)
    (hc : s.open_short_curve_fee a p = .ok c) :
    g ≤ c := by
  unfold State.open_short_governance_fee at hg
  rw [hc] at hg
  simp only [bind, Except.bind] at hg
  unfold fixedMul mulDivDown at hg
  split at hg
  · exact absurd hg (by simp)
  · split at hg
    · exact absurd hg (by simp)
    · have hgv : s.governance_lp_fee * c / SCALE = g := by
        injection hg
      calc g = s.governance_lp_fee * c / SCALE := hgv.symm
        _ ≤ SCALE * c / SCALE :=
            Nat.div_le_div_right (Nat.mul_le_mul hgov (le_refl c))
        _ = c := Nat.mul_div_cancel_left c (by decide)

/-- Witness for C5: on the §8 scenario, `0.05e18 ≤ 0.5e18`. -/
theorem open_short_governance_fee_le_curve_fee_witness :
    (sampleState.governance_lp_fee ≤ SCALE ∧
      sampleState.open_short_governance_fee (1000 * 10 ^ 18) (95 * 10 ^ 16) =
        .ok (5 * 10 ^ 16) ∧
      sampleState.open_short_curve_fee (1000 * 10 ^ 18) (95 * 10 ^ 16) =
        .ok (5 * 10 ^ 17)) ∧
    5 * 10 ^ 16 ≤ 5 * 10 ^ 17 :=
  ⟨⟨by decide, by rfl, by rfl⟩,
    open_short_governance_fee_le_curve_fee sampleState (1000 * 10 ^ 18)
      (95 * 10 ^ 16) (5 * 10 ^ 16) (5 * 10 ^ 17) (by decide) (by rfl) (by rfl)⟩

/-- C2: for every snapshot with spot price at most `1e18`, nonzero vault
share price, and no overflow, `close_short_curve_fee` returns exactly
`curveFeeRate × (1 − spotPrice()) × mulDivDown(bondAmount, timeRemaining,
vaultSharePrice())`, where `timeRemaining` is
`calculate_normalized_time_remaining(maturityTime, currentTime)`,
`mulDivDown` multiplies before dividing rounding toward zero, and the spot
price is the one read from the snapshot. -/
theorem close_short_curve_fee_eq_spec (s : State) (b m t : Nat)
    (hsp : s.get_spot_price ≤ SCALE)
    (hvsp : s.vault_share_price ≠ 0)
    (h1 : s.curve_fee * (SCALE - s.get_spot_price) / SCALE < U256LIM)
    (h2 : b * s.calculate_normalized_time_remaining m t / s.vault_share_price
      < U256LIM)
    (h3 : s.curve_fee * (SCALE - s.get_spot_price) / SCALE *
        (b * s.calculate_normalized_time_remaining m t / s.vault_share_price) /
        SCALE < U256LIM) :
    s.close_short_curve_fee b m t =
      .ok (specMulDown (specMulDown s.curve_fee (SCALE - s.get_spot_price))
        (specMulDivDown b (s.calculate_normalized_time_remaining m t)
          s.vault_share_price)) := by
  simp only [State.close_short_curve_fee, bind, Except.bind,
    fixedSub_ok _ _ hsp, fixedMul_ok _ _ h1, mulDivDown_ok _ _ _ hvsp h2,
    fixedMul_ok _ _ h3]
  simp [specMulDown, specMulDivDown]

/-- Witness for C2: on the sample snapshot with half the term remaining and
a unit bond amount, the close-side curve fee is `0.00025e18`. -/
theorem close_short_curve_fee_eq_spec_witness :
    (sampleState.get_spot_price ≤ SCALE ∧
      sampleState.vault_share_price ≠ 0 ∧
      sampleState.curve_fee * (SCALE - sampleState.get_spot_price) / SCALE
        < U256LIM ∧
      10 ^ 18 * sampleState.calculate_normalized_time_remaining 1000 500 /
        sampleState.vault_share_price < U256LIM ∧
      sampleState.curve_fee * (SCALE - sampleState.get_spot_price) / SCALE *
        (10 ^ 18 * sampleState.calculate_normalized_time_remaining 1000 500 /
          sampleState.vault_share_price) / SCALE < U256LIM) ∧
    sampleState.close_short_curve_fee (10 ^ 18) 1000 500 =
      .ok (25 * 10 ^ 13) :=
  ⟨⟨by decide, by decide, by decide, by decide, by decide⟩,
    (close_short_curve_fee_eq_spec sampleState (10 ^ 18) 1000 500
      (by decide) (by decide) (by decide) (by decide) (by decide)).trans
      (by rfl)⟩

/-- C3: for every snapshot with nonzero vault share price, a normalized
time remaining at most `1e18`, and no overflow, `close_short_flat_fee`
returns exactly `mulDivDown(bondAmount, 1 − timeRemaining,
vaultSharePrice()) × flatFeeRate`, with `timeRemaining` computed by the
same `calculate_normalized_time_remaining` call that
`close_short_curve_fee` uses. -/
theorem close_short_flat_fee_eq_spec (s : State) (b m t : Nat)
    (hntr : s.calculate_normalized_time_remaining m t ≤ SCALE)
    (hvsp : s.vault_share_price ≠ 0)
    (h1 : b * (SCALE - s.calculate_normalized_time_remaining m t) /
      s.vault_share_price < U256LIM)
    (h2 : b * (SCALE - s.calculate_normalized_time_remaining m t) /
        s.vault_share_price * s.flat_fee / SCALE < U256LIM) :
    s.close_short_flat_fee b m t =
      .ok (specMulDown
        (specMulDivDown b (SCALE - s.calculate_normalized_time_remaining m t)
          s.vault_share_price) s.flat_fee) := by
  simp only [State.close_short_flat_fee, bind, Except.bind,
    fixedSub_ok _ _ hntr, mulDivDown_ok _ _ _ hvsp h1, fixedMul_ok _ _ h2]
  simp [specMulDown, specMulDivDown]

/-- Witness for C3: on the sample snapshot with half the term remaining and
a unit bond amount, the close-side flat fee is `0.0025e18`. -/
theorem close_short_flat_fee_eq_spec_witness :
    (sampleState.calculate_normalized_time_remaining 1000 500 ≤ SCALE ∧
      sampleState.vault_share_price ≠ 0 ∧
      10 ^ 18 * (SCALE - sampleState.calculate_normalized_time_remaining 1000 500) /
        sampleState.vault_share_price < U256LIM ∧
      10 ^ 18 * (SCALE - sampleState.calculate_normalized_time_remaining 1000 500) /
        sampleState.vault_share_price * sampleState.flat_fee / SCALE < U256LIM) ∧
    sampleState.close_short_flat_fee (10 ^ 18) 1000 500 =
      .ok (25 * 10 ^ 14) :=
  ⟨⟨by decide, by decide, by decide, by decide⟩,
    (close_short_flat_fee_eq_spec sampleState (10 ^ 18) 1000 500
      (by decide) (by decide) (by decide) (by decide)).trans (by rfl)⟩

lemma open_short_curve_fee_cases (s : State) (a p : Nat) :
    s.open_short_curve_fee a p =
      if SCALE < p then .error .Underflow
      else if U256LIM ≤ s.curve_fee * (SCALE - p) / SCALE then .error .Overflow
      else if U256LIM ≤ s.curve_fee * (SCALE - p) / SCALE * a / SCALE then
        .error .Overflow
      else .ok (s.curve_fee * (SCALE - p) / SCALE * a / SCALE) := by
  by_cases hp : p ≤ SCALE
  · by_cases h1 : U256LIM ≤ s.curve_fee * (SCALE - p) / SCALE
    · simp [State.open_short_curve_fee, fixedSub, fixedMul, mulDivDown,
        bind, Except.bind, hp, h1, Nat.not_lt.mpr hp, SCALE_ne_zero]
    · by_cases h2 : U256LIM ≤ s.curve_fee * (SCALE - p) / SCALE * a / SCALE
      · simp [State.open_short_curve_fee, fixedSub, fixedMul, mulDivDown,
          bind, Except.bind, hp, h1, h2, Nat.not_lt.mpr hp, SCALE_ne_zero]
      · simp [State.open_short_curve_fee, fixedSub, fixedMul, mulDivDown,
          bind, Except.bind, hp, h1, h2, Nat.not_lt.mpr hp, SCALE_ne_zero]
  · simp [State.open_short_curve_fee, fixedSub, bind, Except.bind, hp,
      Nat.not_le.mp hp]

lemma open_short_governance_fee_cases (s : State) (a p : Nat) :
    s.open_short_governance_fee a p =
      if SCALE < p then .error .Underflow
      else if U256LIM ≤ s.curve_fee * (SCALE - p) / SCALE then .error .Overflow
      else if U256LIM ≤ s.curve_fee * (SCALE - p) / SCALE * a / SCALE then
        .error .Overflow
      else if U256LIM ≤
          s.governance_lp_fee * (s.curve_fee * (SCALE - p) / SCALE * a / SCALE) /
            SCALE then
        .error .Overflow
      else
        .ok (s.governance_lp_fee * (s.curve_fee * (SCALE - p) / SCALE * a / SCALE) /
          SCALE) := by
  unfold State.open_short_governance_fee
  rw [open_short_curve_fee_cases]
  by_cases hp : SCALE < p
  · simp [hp, bind, Except.bind]
  · by_cases h1 : U256LIM ≤ s.curve_fee * (SCALE - p) / SCALE
    · simp [hp, h1, bind, Except.bind]
    · by_cases h2 : U256LIM ≤ s.curve_fee * (SCALE - p) / SCALE * a / SCALE
      · simp [hp, h1, h2, bind, Except.bind]
      · by_cases h3 : U256LIM ≤
            s.governance_lp_fee * (s.curve_fee * (SCALE - p) / SCALE * a / SCALE) /
              SCALE
        · simp [hp, h1, h2, h3, bind, Except.bind, fixedMul, mulDivDown,
            SCALE_ne_zero]
        · simp [hp, h1, h2, h3, bind, Except.bind, fixedMul, mulDivDown,
            SCALE_ne_zero]

lemma close_short_curve_fee_cases (s : State) (b m t : Nat) :
    s.close_short_curve_fee b m t =
      if SCALE < s.get_spot_price then .error .Underflow
      else if U256LIM ≤ s.curve_fee * (SCALE - s.get_spot_price) / SCALE then
        .error .Overflow
      else if s.vault_share_price = 0 then .error .DivisionByZero
      else if U256LIM ≤
          b * s.calculate_normalized_time_remaining m t / s.vault_share_price then
        .error .Overflow
      else if U256LIM ≤
          s.curve_fee * (SCALE - s.get_spot_price) / SCALE *
            (b * s.calculate_normalized_time_remaining m t / s.vault_share_price) /
            SCALE then
        .error .Overflow
      else
        .ok (s.curve_fee * (SCALE - s.get_spot_price) / SCALE *
          (b * s.calculate_normalized_time_remaining m t / s.vault_share_price) /
          SCALE) := by
  by_cases hsp : s.get_spot_price ≤ SCALE
  · by_cases h1 : U256LIM ≤ s.curve_fee * (SCALE - s.get_spot_price) / SCALE
    · simp [State.close_short_curve_fee, fixedSub, fixedMul, mulDivDown,
        bind, Except.bind, hsp, h1, Nat.not_lt.mpr hsp, SCALE_ne_zero]
    · by_cases hv : s.vault_share_price = 0
      · simp [State.close_short_curve_fee, fixedSub, fixedMul, mulDivDown,
          bind, Except.bind, hsp, h1, hv, Nat.not_lt.mpr hsp, SCALE_ne_zero]
      · by_cases h2 : U256LIM ≤
            b * s.calculate_normalized_time_remaining m t / s.vault_share_price
        · simp [State.close_short_curve_fee, fixedSub, fixedMul, mulDivDown,
            bind, Except.bind, hsp, h1, hv, h2, Nat.not_lt.mpr hsp, SCALE_ne_zero]
        · by_cases h3 : U256LIM ≤
              s.curve_fee * (SCALE - s.get_spot_price) / SCALE *
                (b * s.calculate_normalized_time_remaining m t /
                  s.vault_share_price) / SCALE
          · simp [State.close_short_curve_fee, fixedSub, fixedMul, mulDivDown,
              bind, Except.bind, hsp, h1, hv, h2, h3, Nat.not_lt.mpr hsp,
              SCALE_ne_zero]
          · simp [State.close_short_curve_fee, fixedSub, fixedMul, mulDivDown,
              bind, Except.bind, hsp, h1, hv, h2, h3, Nat.not_lt.mpr hsp,
              SCALE_ne_zero]
  · simp [State.close_short_curve_fee, fixedSub, bind, Except.bind, hsp,
      Nat.not_le.mp hsp]

lemma close_short_flat_fee_cases (s : State) (b m t : Nat) :
    s.close_short_flat_fee b m t =
      if SCALE < s.calculate_normalized_time_remaining m t then .error .Underflow
      else if s.vault_share_price = 0 then .error .DivisionByZero
      else if U256LIM ≤
          b * (SCALE - s.calculate_normalized_time_remaining m t) /
            s.vault_share_price then
        .error .Overflow
      else if U256LIM ≤
          b * (SCALE - s.calculate_normalized_time_remaining m t) /
            s.vault_share_price * s.flat_fee / SCALE then
        .error .Overflow
      else
        .ok (b * (SCALE - s.calculate_normalized_time_remaining m t) /
          s.vault_share_price * s.flat_fee / SCALE) := by
  by_cases hntr : s.calculate_normalized_time_remaining m t ≤ SCALE
  · by_cases hv : s.vault_share_price = 0
    · simp [State.close_short_flat_fee, fixedSub, fixedMul, mulDivDown,
        bind, Except.bind, hntr, hv, Nat.not_lt.mpr hntr, SCALE_ne_zero]
    · by_cases h1 : U256LIM ≤
          b * (SCALE - s.calculate_normalized_time_remaining m t) /
            s.vault_share_price
      · simp [State.close_short_flat_fee, fixedSub, fixedMul, mulDivDown,
          bind, Except.bind, hntr, hv, h1, Nat.not_lt.mpr hntr, SCALE_ne_zero]
      · by_cases h2 : U256LIM ≤
            b * (SCALE - s.calculate_normalized_time_remaining m t) /
              s.vault_share_price * s.flat_fee / SCALE
        · simp [State.close_short_flat_fee, fixedSub, fixedMul, mulDivDown,
            bind, Except.bind, hntr, hv, h1, h2, Nat.not_lt.mpr hntr,
            SCALE_ne_zero]
        · simp [State.close_short_flat_fee, fixedSub, fixedMul, mulDivDown,
            bind, Except.bind, hntr, hv, h1, h2, Nat.not_lt.mpr hntr,
            SCALE_ne_zero]
  · simp [State.close_short_flat_fee, fixedSub, bind, Except.bind, hntr,
      Nat.not_le.mp hntr]

/-- C6: none of the four fee functions raises an error of its own — each
result is completely characterized by the underlying arithmetic
primitives: `Underflow` exactly when a `1e18 − x` subtraction would go
negative, `DivisionByZero` exactly when `vaultSharePrice()` is zero at a
`mulDivDown`, `Overflow` exactly when a multiply-then-divide leaves the
256-bit range, and otherwise the rounded-down value; failures propagate
unmodified with no recovery, retry, or substituted default. -/
theorem fee_error_propagation (s : State) (a p b m t : Nat) :
    (s.open_short_curve_fee a p =
      if SCALE < p then .error .Underflow
      else if U256LIM ≤ s.curve_fee * (SCALE - p) / SCALE then .error .Overflow
      else if U256LIM ≤ s.curve_fee * (SCALE - p) / SCALE * a / SCALE then
        .error .Overflow
      else .ok (s.curve_fee * (SCALE - p) / SCALE * a / SCALE)) ∧
    (s.open_short_governance_fee a p =
      if SCALE < p then .error .Underflow
      else if U256LIM ≤ s.curve_fee * (SCALE - p) / SCALE then .error .Overflow
      else if U256LIM ≤ s.curve_fee * (SCALE - p) / SCALE * a / SCALE then
        .error .Overflow
      else if U256LIM ≤
          s.governance_lp_fee * (s.curve_fee * (SCALE - p) / SCALE * a / SCALE) /
            SCALE then
        .error .Overflow
      else
        .ok (s.governance_lp_fee * (s.curve_fee * (SCALE - p) / SCALE * a / SCALE) /
          SCALE)) ∧
    (s.close_short_curve_fee b m t =
      if SCALE < s.get_spot_price then .error .Underflow
      else if U256LIM ≤ s.curve_fee * (SCALE - s.get_spot_price) / SCALE then
        .error .Overflow
      else if s.vault_share_price = 0 then .error .DivisionByZero
      else if U256LIM ≤
          b * s.calculate_normalized_time_remaining m t / s.vault_share_price then
        .error .Overflow
      else if U256LIM ≤
          s.curve_fee * (SCALE - s.get_spot_price) / SCALE *
            (b * s.calculate_normalized_time_remaining m t / s.vault_share_price) /
            SCALE then
        .error .Overflow
      else
        .ok (s.curve_fee * (SCALE - s.get_spot_price) / SCALE *
          (b * s.calculate_normalized_time_remaining m t / s.vault_share_price) /
          SCALE)) ∧
    (s.close_short_flat_fee b m t =
      if SCALE < s.calculate_normalized_time_remaining m t then .error .Underflow
      else if s.vault_share_price = 0 then .error .DivisionByZero
      else if U256LIM ≤
          b * (SCALE - s.calculate_normalized_time_remaining m t) /
            s.vault_share_price then
        .error .Overflow
      else if U256LIM ≤
          b * (SCALE - s.calculate_normalized_time_remaining m t) /
            s.vault_share_price * s.flat_fee / SCALE then
        .error .Overflow
      else
        .ok (b * (SCALE - s.calculate_normalized_time_remaining m t) /
          s.vault_share_price * s.flat_fee / SCALE)) :=
  ⟨open_short_curve_fee_cases s a p, open_short_governance_fee_cases s a p,
    close_short_curve_fee_cases s b m t, close_short_flat_fee_cases s b m t⟩

lemma close_short_curve_fee_ok_val (s : State) (b m t u : Nat)
    (h : s.close_short_curve_fee b m t = .ok u) :
    u = s.curve_fee * (SCALE - s.get_spot_price) / SCALE *
      (b * s.calculate_normalized_time_remaining m t / s.vault_share_price) /
      SCALE := by
  rw [close_short_curve_fee_cases] at h
  repeat' split at h
  all_goals simp_all

lemma close_short_flat_fee_ok_val (s : State) (b m t u : Nat)
    (h : s.close_short_flat_fee b m t = .ok u) :
    u = b * (SCALE - s.calculate_normalized_time_remaining m t) /
      s.vault_share_price * s.flat_fee / SCALE := by
  rw [close_short_flat_fee_cases] at h
  repeat' split at h
  all_goals simp_all

/-- C7: for a fixed snapshot and fixed times, both `close_short_curve_fee`
and `close_short_flat_fee` are monotonically non-decreasing in the bond
amount whenever both evaluations succeed. -/
theorem close_fees_monotone_in_bond_amount (s : State) (m t b b' u1 v1 u2 v2 : Nat)
    (hbb : b ≤ b')
    (h1 : s.close_short_curve_fee b m t = .ok u1)
    (h2 : s.close_short_curve_fee b' m t = .ok v1)
    (h3 : s.close_short_flat_fee b m t = .ok u2)
    (h4 : s.close_short_flat_fee b' m t = .ok v2) :
    u1 ≤ v1 ∧ u2 ≤ v2 := by
  rw [close_short_curve_fee_ok_val s b m t u1 h1,
    close_short_curve_fee_ok_val s b' m t v1 h2,
    close_short_flat_fee_ok_val s b m t u2 h3,
    close_short_flat_fee_ok_val s b' m t v2 h4]
  constructor
  · exact Nat.div_le_div_right (Nat.mul_le_mul (le_refl _)
      (Nat.div_le_div_right (Nat.mul_le_mul hbb (le_refl _))))
  · exact Nat.div_le_div_right (Nat.mul_le_mul
      (Nat.div_le_div_right (Nat.mul_le_mul hbb (le_refl _))) (le_refl _))

/-- Witness for C7: on the sample snapshot, doubling the bond amount takes
the curve fee from `0.00025e18` to `0.0005e18` and the flat fee from
`0.0025e18` to `0.005e18`. -/
theorem close_fees_monotone_in_bond_amount_witness :
    (10 ^ 18 ≤ 2 * 10 ^ 18 ∧
      sampleState.close_short_curve_fee (10 ^ 18) 1000 500 = .ok (25 * 10 ^ 13) ∧
      sampleState.close_short_curve_fee (2 * 10 ^ 18) 1000 500 = .ok (5 * 10 ^ 14) ∧
      sampleState.close_short_flat_fee (10 ^ 18) 1000 500 = .ok (25 * 10 ^ 14) ∧
      sampleState.close_short_flat_fee (2 * 10 ^ 18) 1000 500 = .ok (5 * 10 ^ 15)) ∧
    25 * 10 ^ 13 ≤ 5 * 10 ^ 14 ∧ 25 * 10 ^ 14 ≤ 5 * 10 ^ 15 :=
  ⟨⟨by decide, by rfl, by rfl, by rfl, by rfl⟩,
    close_fees_monotone_in_bond_amount sampleState 1000 500 (10 ^ 18)
      (2 * 10 ^ 18) (25 * 10 ^ 13) (5 * 10 ^ 14) (25 * 10 ^ 14) (5 * 10 ^ 15)
      (by decide) (by rfl) (by rfl) (by rfl) (by rfl)⟩

lemma mulDown_le_left (x y : Nat) (hy : y ≤ SCALE) : x * y / SCALE ≤ x :=
  calc x * y / SCALE ≤ x * SCALE / SCALE :=
        Nat.div_le_div_right (Nat.mul_le_mul (le_refl x) hy)
    _ = x := Nat.mul_div_cancel x (by decide)

/-- C8: whenever the normalized time remaining is `0` (in particular at
`currentTime = maturityTime`), the close-side curve fee is `0` and the
close-side flat fee reduces to
`mulDivDown(bondAmount, 1e18, vaultSharePrice()) × flatFee()`. -/
theorem close_fees_at_maturity (s : State) (b m t : Nat)
    (hc : s.curve_fee < U256LIM)
    (hsp : s.get_spot_price ≤ SCALE)
    (hvsp : s.vault_share_price ≠ 0)
    (hntr : s.calculate_normalized_time_remaining m t = 0)
    (hf1 : b * SCALE / s.vault_share_price < U256LIM)
    (hf2 : b * SCALE / s.vault_share_price * s.flat_fee / SCALE < U256LIM) :
    s.close_short_curve_fee b m t = .ok 0 ∧
    s.close_short_flat_fee b m t =
      .ok (specMulDown (specMulDivDown b SCALE s.vault_share_price)
        s.flat_fee) := by
  have hz : ¬ U256LIM ≤ 0 := by decide
  constructor
  · have hx : s.curve_fee * (SCALE - s.get_spot_price) / SCALE < U256LIM :=
      lt_of_le_of_lt (mulDown_le_left _ _ (Nat.sub_le _ _)) hc
    rw [close_short_curve_fee_cases, hntr]
    simp [Nat.not_lt.mpr hsp, Nat.not_le.mpr hx, hvsp, hz]
  · rw [close_short_flat_fee_cases, hntr]
    simp [hvsp, Nat.not_le.mpr hf1, Nat.not_le.mpr hf2, specMulDown,
      specMulDivDown]

/-- Witness for C8: on the boundary snapshot at `currentTime =
maturityTime = 1000` the close-side curve fee is `0` and the flat fee is
the fully charged `mulDivDown(1e18, 1e18, 1e18) × 0.005e18 = 0.005e18`. -/
theorem close_fees_at_maturity_witness :
    (boundaryState.curve_fee < U256LIM ∧
      boundaryState.get_spot_price ≤ SCALE ∧
      boundaryState.vault_share_price ≠ 0 ∧
      boundaryState.calculate_normalized_time_remaining 1000 1000 = 0 ∧
      10 ^ 18 * SCALE / boundaryState.vault_share_price < U256LIM ∧
      10 ^ 18 * SCALE / boundaryState.vault_share_price *
        boundaryState.flat_fee / SCALE < U256LIM) ∧
    boundaryState.close_short_curve_fee (10 ^ 18) 1000 1000 = .ok 0 ∧
    boundaryState.close_short_flat_fee (10 ^ 18) 1000 1000 = .ok (5 * 10 ^ 15) :=
  ⟨⟨by decide, by decide, by decide, by decide, by decide, by decide⟩,
    (close_fees_at_maturity boundaryState (10 ^ 18) 1000 1000 (by decide)
      (by decide) (by decide) (by decide) (by decide) (by decide)).1,
    ((close_fees_at_maturity boundaryState (10 ^ 18) 1000 1000 (by decide)
      (by decide) (by decide) (by decide) (by decide) (by decide)).2).trans
      (by rfl)⟩

/-- C9: whenever the normalized time remaining is the full `1e18` (as at
the position's open time) and the vault share price is nonzero, the
close-side flat fee is `0`. -/
theorem close_short_flat_fee_full_term (s : State) (b m t : Nat)
    (hvsp : s.vault_share_price ≠ 0)
    (hntr : s.calculate_normalized_time_remaining m t = SCALE) :
    s.close_short_flat_fee b m t = .ok 0 := by
  have hz : ¬ U256LIM ≤ 0 := by decide
  rw [close_short_flat_fee_cases, hntr]
  simp [hvsp, hz]

/-- Witness for C9: on the boundary snapshot strictly before maturity the
whole term remains and the flat fee for a unit bond amount is `0`. -/
theorem close_short_flat_fee_full_term_witness :
    (boundaryState.vault_share_price ≠ 0 ∧
      boundaryState.calculate_normalized_time_remaining 1000 500 = SCALE) ∧
    boundaryState.close_short_flat_fee (10 ^ 18) 1000 500 = .ok 0 :=
  ⟨⟨by decide, by decide⟩,
    close_short_flat_fee_full_term boundaryState (10 ^ 18) 1000 500
      (by decide) (by decide)⟩

/-- C10: a zero amount yields a zero fee from all four functions, for any
well-formed snapshot with spot prices at most `1e18` and a nonzero vault
share price. -/
theorem zero_amount_zero_fee (s : State) (p m t : Nat) (hwf : s.wf)
    (hp : p ≤ SCALE)
    (hsp : s.get_spot_price ≤ SCALE)
    (hvsp : s.vault_share_price ≠ 0) :
    s.open_short_curve_fee 0 p = .ok 0 ∧
    s.open_short_governance_fee 0 p = .ok 0 ∧
    s.close_short_curve_fee 0 m t = .ok 0 ∧
    s.close_short_flat_fee 0 m t = .ok 0 := by
  obtain ⟨hc, -, -, -, -, hn⟩ := hwf
  have hz : ¬ U256LIM ≤ 0 := by decide
  have hx1 : s.curve_fee * (SCALE - p) / SCALE < U256LIM :=
    lt_of_le_of_lt (mulDown_le_left _ _ (Nat.sub_le _ _)) hc
  have hx2 : s.curve_fee * (SCALE - s.get_spot_price) / SCALE < U256LIM :=
    lt_of_le_of_lt (mulDown_le_left _ _ (Nat.sub_le _ _)) hc
  refine ⟨?_, ?_, ?_, ?_⟩
  · rw [open_short_curve_fee_cases]
    simp [Nat.not_lt.mpr hp, Nat.not_le.mpr hx1, hz]
  · rw [open_short_governance_fee_cases]
    simp [Nat.not_lt.mpr hp, Nat.not_le.mpr hx1, hz]
  · rw [close_short_curve_fee_cases]
    simp [Nat.not_lt.mpr hsp, Nat.not_le.mpr hx2, hvsp, hz]
  · rw [close_short_flat_fee_cases]
    simp [Nat.not_lt.mpr (hn m t), hvsp, hz]

/-- Witness for C10: on the sample snapshot all four fees of a zero amount
are `0`. -/
theorem zero_amount_zero_fee_witness :
    (sampleState.wf ∧ 95 * 10 ^ 16 ≤ SCALE ∧
      sampleState.get_spot_price ≤ SCALE ∧
      sampleState.vault_share_price ≠ 0) ∧
    sampleState.open_short_curve_fee 0 (95 * 10 ^ 16) = .ok 0 ∧
    sampleState.open_short_governance_fee 0 (95 * 10 ^ 16) = .ok 0 ∧
    sampleState.close_short_curve_fee 0 1000 500 = .ok 0 ∧
    sampleState.close_short_flat_fee 0 1000 500 = .ok 0 :=
  ⟨⟨⟨by decide, by decide, by decide, by decide, by decide,
      fun _ _ => by show 5 * 10 ^ 17 ≤ SCALE; decide⟩, by decide, by decide, by decide⟩,
    zero_amount_zero_fee sampleState (95 * 10 ^ 16) 1000 500
      ⟨by decide, by decide, by decide, by decide, by decide,
        fun _ _ => by show 5 * 10 ^ 17 ≤ SCALE; decide⟩ (by decide) (by decide) (by decide)⟩
